import Mathlib

/-!
# Verification of the suffolk-law-navigator scraping core

This file embeds the text-processing and extraction logic of the
suffolk-law-navigator repository (a set of near-duplicate Node.js scraper
scripts plus an Express question-answering server) as executable Lean
definitions over `List Char`, and proves or refutes the frozen claims
about it.

JavaScript strings are modelled as `List Char`; `String.prototype.length`,
`substring`, `trim`, `lastIndexOf`, `toLowerCase` and the regex replaces
used by the scripts are modelled by the explicit functions below.  Machine
arithmetic does not occur (all lengths are small naturals); the single
floating-point expression in the source (`maxLength * 0.7`) is discussed
at its embedding site.
-/

/-- The whitespace class of the JavaScript regex `\s` and of
`String.prototype.trim`, restricted to the ASCII characters that can be
produced by the scraped inputs considered here: space, tab, line feed,
carriage return, vertical tab and form feed. -/
def jsWS (c : Char) : Bool :=
  c == ' ' || c == '\t' || c == '\n' || c == '\r' ||
    c == Char.ofNat 11 || c == Char.ofNat 12

/-- State machine for the JavaScript global replace of every maximal run
of characters satisfying `p` by the single character `r`
(e.g. `.replace(/\s+/g, ' ')`).  The flag records whether the previous
character was part of a run. -/
def collapseAux (p : Char → Bool) (r : Char) : Bool → List Char → List Char
  | _, [] => []
  | inRun, c :: rest =>
    if p c then
      if inRun then collapseAux p r true rest
      else r :: collapseAux p r true rest
    else c :: collapseAux p r false rest

/-- `s.replace(/X+/g, r)` for a character class `p`: every maximal
nonempty run of `p`-characters becomes the single character `r`. -/
def collapseRuns (p : Char → Bool) (r : Char) (l : List Char) : List Char :=
  collapseAux p r false l

/-- `s.replace(/\s+/g, ' ')`. -/
def collapseWS (l : List Char) : List Char :=
  collapseRuns jsWS ' ' l

/-- `s.replace(/\n+/g, '\n')`. -/
def collapseNL (l : List Char) : List Char :=
  collapseRuns (fun c => c == '\n') '\n' l

/-- `s.replace(/\t/g, '')`: every tab character is deleted. -/
def removeTab (l : List Char) : List Char :=
  l.filter (fun c => !(c == '\t'))

/-- `String.prototype.trim`: drop leading and trailing whitespace. -/
def jsTrim (l : List Char) : List Char :=
  ((l.dropWhile jsWS).reverse.dropWhile jsWS).reverse

/-- `cleanText` as defined in `src/scrape-all-policies.js` (first script)
and `src/unnamed/part_000`:
`text.replace(/\s+/g, ' ').replace(/\n+/g, '\n').trim()`. -/
def cleanText_allPolicies (text : List Char) : List Char :=
  jsTrim (collapseNL (collapseWS text))

/-- `cleanText` as defined in `src/scrape-policies-v2.js`,
`src/scrape-missing-pages.js`, the library scraper and
`src/add-common-questions.js`:
`text.replace(/\s+/g, ' ').replace(/\t/g, '').trim()`. -/
def cleanText_v2 (text : List Char) : List Char :=
  jsTrim (removeTab (collapseWS text))

/-- The three-character ellipsis marker `"..."` appended by every
`generateSummary` variant. -/
def ellipsis : List Char := ['.', '.', '.']

/-- `String.prototype.lastIndexOf` for a single character: the index of
the last occurrence, or `-1` when the character does not occur. -/
def lastIndexOfChar (c : Char) : List Char → Int
  | [] => -1
  | a :: rest =>
    let r := lastIndexOfChar c rest
    if 0 ≤ r then r + 1
    else if a == c then 0 else -1

/-- `generateSummary` as defined in `src/scrape-all-policies.js` (first
script) and `src/unnamed/part_000`: trim, return short content whole;
otherwise truncate to `maxLength` and, when the last period of the
truncation sits beyond 70% of `maxLength`, cut there inclusively, else
hard-cut to `maxLength - 3` and append `"..."`.

The source compares `lastPeriod > maxLength * 0.7` in IEEE doubles.  Every
call site uses the default `maxLength = 200`, for which the double product
`200 * 0.7` is exactly `140`, so the comparison is the exact rational one
`10 * lastPeriod > 7 * maxLength` used here. -/
def generateSummary_allPolicies (content : List Char) (maxLength : Nat) : List Char :=
  let cleaned := jsTrim content
  if cleaned.length ≤ maxLength then cleaned
  else
    let truncated := cleaned.take maxLength
    let lastPeriod := lastIndexOfChar '.' truncated
    if 7 * (maxLength : Int) < 10 * lastPeriod then
      truncated.take (lastPeriod.toNat + 1)
    else
      truncated.take (maxLength - 3) ++ ellipsis

/-- `generateSummary` as defined in `src/scrape-policies-v2.js`,
`src/scrape-missing-pages.js`, the library scraper and
`src/add-common-questions.js`: trim, return short content whole, else
hard-cut to `maxLength - 3` and append `"..."`.  This variant has no
period-boundary branch. -/
def generateSummary_v2 (content : List Char) (maxLength : Nat) : List Char :=
  let cleaned := jsTrim content
  if cleaned.length ≤ maxLength then cleaned
  else cleaned.take (maxLength - 3) ++ ellipsis

/-! ## The multi-tier content extractor

The selector-loop scrapers (`scrapePage` in `src/scrape-policies-v2.js`,
`src/scrape-missing-pages.js`, and the library/crawler scripts) operate on
a cheerio document after boilerplate removal.  The DOM query layer is
abstracted: `query sel` is the combined raw text of the elements matched
by CSS selector `sel` (`none` when no element matches, mirroring
`element.length === 0`), and `bodyParas` lists the raw text of each
`body p` node in document order. -/

structure Doc where
  query : List Char → Option (List Char)
  bodyParas : List (List Char)

/-- The selector priority loop: try each candidate selector in order; the
first whose cleaned text strictly exceeds `minLen` wins and the loop
breaks.  It consults only the query layer, never the body paragraphs. -/
def findSelectorContent (clean : List Char → List Char) (minLen : Nat)
    (q : List Char → Option (List Char)) : List (List Char) → Option (List Char)
  | [] => none
  | sel :: rest =>
    match q sel with
    | none => findSelectorContent clean minLen q rest
    | some raw =>
      let text := clean raw
      if minLen < text.length then some text
      else findSelectorContent clean minLen q rest

/-- The body-paragraph fallback tier: concatenate, in document order, the
cleaned text of every paragraph longer than `floor`, each followed by the
separator (`'\n\n'` or `' '` depending on the variant). -/
def collectParas (clean : List Char → List Char) (floor : Nat)
    (sep : List Char) (paras : List (List Char)) : List Char :=
  paras.foldl
    (fun acc p =>
      let text := clean p
      if floor < text.length then acc ++ text ++ sep else acc)
    []

/-- Minimum acceptable content length of `scrapePolicyPage` in
`src/scrape-all-policies.js` (`if (content.length < 50) return null`). -/
def minContentLength_allPolicies : Nat := 50

/-- Minimum acceptable content length of `scrapePage` in
`src/scrape-policies-v2.js`. -/
def minContentLength_v2 : Nat := 100

/-- Minimum acceptable content length of `scrapePage` in
`src/scrape-missing-pages.js`. -/
def minContentLength_missingPages : Nat := 100

/-- Minimum acceptable content length of `scrapePage` in the library
scraper script. -/
def minContentLength_library : Nat := 200

/-- Per-section acceptance threshold of `scrapePage` in
`src/unnamed/part_000` (`if (content.length > 100)`). -/
def minSectionLength_part000 : Nat := 100

/-- Stored-content cap of `scrapePolicyPage` in
`src/scrape-all-policies.js` (`content.substring(0, 8000)`). -/
def maxContentLength_allPolicies : Nat := 8000

/-- Stored-content cap of `scrapePage` in `src/scrape-policies-v2.js`. -/
def maxContentLength_v2 : Nat := 10000

/-- Stored-content cap of `scrapePage` in `src/scrape-missing-pages.js`. -/
def maxContentLength_missingPages : Nat := 10000

/-- Stored-content cap of `scrapePage` in the library scraper. -/
def maxContentLength_library : Nat := 12000

/-- Paragraph separator `'\n\n'` used by the fallback tier of the v2 and
missing-pages scrapers and by `scrapePolicyPage`. -/
def sepPara : List Char := ['\n', '\n']

/-- Paragraph separator `' '` used by the fallback tier of the library
scraper. -/
def sepSpace : List Char := [' ']

/-- Candidate selectors of `src/scrape-policies-v2.js`, in priority
order. -/
def selectors_v2 : List (List Char) :=
  [".content".data, ".main-content".data, "main".data, "article".data,
    ".policy-content".data, "#content".data, ".page-content".data]

/-- Candidate selectors of `src/scrape-missing-pages.js`, in priority
order. -/
def selectors_missingPages : List (List Char) :=
  [".content".data, ".main-content".data, "main".data, "article".data,
    ".page-content".data, "#content".data]

/-- Candidate selectors of the library scraper, in priority order. -/
def selectors_library : List (List Char) :=
  ["main".data, "article".data, ".content".data, ".main-content".data,
    ".page-content".data, "#content".data]

/-- The shared extraction skeleton of the selector-loop scrapers: first
acceptable selector wins, otherwise the body-paragraph fallback; the
result is trimmed and rejected below `minLen`. -/
def extractContent (clean : List Char → List Char) (sels : List (List Char))
    (minLen floor : Nat) (sep : List Char) (d : Doc) : Option (List Char) :=
  let content₀ :=
    match findSelectorContent clean minLen d.query sels with
    | some text => text
    | none => collectParas clean floor sep d.bodyParas
  let content := jsTrim content₀
  if content.length < minLen then none else some content

/-- Content extraction of `scrapePage` in `src/scrape-policies-v2.js`:
threshold 100, paragraph floor 30, separator `'\n\n'`. -/
def scrapeExtract_v2 (d : Doc) : Option (List Char) :=
  extractContent cleanText_v2 selectors_v2 minContentLength_v2 30 sepPara d

/-- Content extraction of `scrapePage` in `src/scrape-missing-pages.js`. -/
def scrapeExtract_missingPages (d : Doc) : Option (List Char) :=
  extractContent cleanText_v2 selectors_missingPages minContentLength_missingPages 30 sepPara d

/-- Content extraction of `scrapePage` in the library scraper: threshold
200, paragraph floor 30, separator `' '`. -/
def scrapeExtract_library (d : Doc) : Option (List Char) :=
  extractContent cleanText_v2 selectors_library minContentLength_library 30 sepSpace d

/-- `title.toLowerCase().replace(/[^a-z0-9]/g, '-')`, used to derive
external identifiers (ASCII lowering, as produced by the scraped titles
considered here). -/
def toLowerDash (t : List Char) : List Char :=
  (t.map Char.toLower).map
    (fun c => if ('a' ≤ c ∧ c ≤ 'z') ∨ ('0' ≤ c ∧ c ≤ '9') then c else '-')

/-- `String.prototype.split` on a single separator character. -/
def splitOnChar (sep : Char) : List Char → List (List Char)
  | [] => [[]]
  | c :: rest =>
    let r := splitOnChar sep rest
    if c == sep then [] :: r
    else
      match r with
      | [] => [[c]]
      | g :: gs => (c :: g) :: gs

/-- `url.split('/').slice(-2).join('-')`, used by the library and crawler
scrapers to derive an identifier slug from the URL. -/
def urlSlug (url : List Char) : List Char :=
  let parts := splitOnChar '/' url
  List.intercalate ['-'] (parts.drop (parts.length - 2))

/-- The transient record built by every scraper variant and handed to the
persistence layer (§3 of the spec calls it `ScrapedPage`). -/
structure ScrapedRecord where
  external_id : List Char
  title : List Char
  category : List Char
  content : List Char
  summary : List Char
  source_url : List Char
  source_name : List Char
  deriving DecidableEq

/-- `scrapePage` of `src/scrape-policies-v2.js`, after the network fetch
and cheerio parse (abstracted into `d`): extract, then build the record
with the content capped at 10000 characters. -/
def scrapePage_v2 (url title : List Char) (d : Doc) : Option ScrapedRecord :=
  match scrapeExtract_v2 d with
  | none => none
  | some content =>
    some
      { external_id := "policy-v2-".data ++ (toLowerDash title).take 50
        title := title
        category := "student-services".data
        content := content.take maxContentLength_v2
        summary := generateSummary_v2 content 200
        source_url := url
        source_name := title }

/-- `scrapePage` of `src/scrape-missing-pages.js` (category supplied by
the caller, cap 10000). -/
def scrapePage_missingPages (url title category : List Char) (d : Doc) :
    Option ScrapedRecord :=
  match scrapeExtract_missingPages d with
  | none => none
  | some content =>
    some
      { external_id := "page-".data ++ (toLowerDash title).take 50
        title := title
        category := category
        content := content.take maxContentLength_missingPages
        summary := generateSummary_v2 content 200
        source_url := url
        source_name := title }

/-- `scrapePage` of the library scraper (category `'library'`, cap
12000, identifier derived from the URL slug). -/
def scrapePage_library (url title : List Char) (d : Doc) : Option ScrapedRecord :=
  match scrapeExtract_library d with
  | none => none
  | some content =>
    some
      { external_id := "library-".data ++ (urlSlug url).take 80
        title := title
        category := "library".data
        content := content.take maxContentLength_library
        summary := generateSummary_v2 content 200
        source_url := url
        source_name := title }

/-- The document abstraction for `scrapePolicyPage` in
`src/scrape-all-policies.js`: `mainParas` is the list of raw texts of the
`p, li` descendants of the first element matching
`'main, .main-content, article, .content, .policy-content'`, or `none`
when no such container exists. -/
structure DocA where
  mainParas : Option (List (List Char))

/-- The paragraph concatenation of `scrapePolicyPage`: guard
`if (text && text.length > 20)` (truthiness plus strict floor), separator
`'\n\n'`. -/
def collectMainParas (ps : List (List Char)) : List Char :=
  ps.foldl
    (fun acc p =>
      let text := cleanText_allPolicies p
      if text ≠ [] ∧ 20 < text.length then acc ++ text ++ sepPara else acc)
    []

/-- Content extraction of `scrapePolicyPage` in
`src/scrape-all-policies.js`: paragraph concatenation from the main
container (empty when no container matched), trimmed, rejected below
50 characters. -/
def extract_allPolicies (d : DocA) : Option (List Char) :=
  let content₀ :=
    match d.mainParas with
    | none => []
    | some ps => collectMainParas ps
  let content := jsTrim content₀
  if content.length < minContentLength_allPolicies then none else some content

/-- `scrapePolicyPage` of `src/scrape-all-policies.js`: extract, then
build the record with the content capped at 8000 characters. -/
def scrapePolicyPage (linkTitle linkUrl : List Char) (d : DocA) :
    Option ScrapedRecord :=
  match extract_allPolicies d with
  | none => none
  | some content =>
    some
      { external_id := "policy-".data ++ toLowerDash linkTitle
        title := linkTitle
        category := "student-services".data
        content := content.take maxContentLength_allPolicies
        summary := generateSummary_allPolicies content 200
        source_url := linkUrl
        source_name := linkTitle }

/-- The per-section record construction of `scrapePage` in
`src/unnamed/part_000` (lines 60-90).  The DOM sibling walk that
accumulates a section's text under an `h2`/`h3` header is abstracted
into the input `content₀`; what is embedded is the trim, the acceptance
guard `if (content.length > 100)` and the record fields pushed. -/
def sectionPolicy_part000 (category name url title : List Char) (i : Nat)
    (content₀ : List Char) : Option ScrapedRecord :=
  let content := jsTrim content₀
  if minSectionLength_part000 < content.length then
    some
      { external_id := category ++ ['-'] ++ (toString i).data ++ "-v2".data
        title := title
        category := category
        content := content
        summary := generateSummary_allPolicies content 200
        source_url := url
        source_name := name }
  else none

/-! ## The persistence rows and the upsert conflict clauses

`init-db.js` declares the `policies` table with columns `id`,
`external_id`, `title`, `category`, `content`, `summary`, `source_url`,
`source_name`, `is_active`, `created_at`, `last_updated`.  An
`ON CONFLICT(external_id) DO UPDATE` clause maps the existing row and the
candidate (`excluded`) values to the updated row; timestamps are abstract
instants. -/

structure PolicyRow where
  external_id : List Char
  title : List Char
  category : List Char
  content : List Char
  summary : List Char
  source_url : List Char
  source_name : List Char
  is_active : Bool
  created_at : Nat
  last_updated : Nat
  deriving DecidableEq

/-- Conflict clause of `savePolicies` in `src/scrape-all-policies.js`:
`SET content = excluded.content, summary = excluded.summary,
last_updated = CURRENT_TIMESTAMP`. -/
def upsertOnConflict_allPolicies (old : PolicyRow) (rec : ScrapedRecord)
    (now : Nat) : PolicyRow :=
  { old with
    content := rec.content
    summary := rec.summary
    last_updated := now }

/-- Conflict clause of `savePolicies` in `src/scrape-policies-v2.js`:
`SET content = excluded.content, last_updated = CURRENT_TIMESTAMP`
(the summary column is not updated). -/
def upsertOnConflict_v2 (old : PolicyRow) (rec : ScrapedRecord)
    (now : Nat) : PolicyRow :=
  { old with
    content := rec.content
    last_updated := now }

/-- Conflict clause of the inline save of `src/scrape-missing-pages.js`:
content and timestamp only. -/
def upsertOnConflict_missingPages (old : PolicyRow) (rec : ScrapedRecord)
    (now : Nat) : PolicyRow :=
  { old with
    content := rec.content
    last_updated := now }

/-- Conflict clause of `savePolicy` in the library scraper: content and
timestamp only. -/
def upsertOnConflict_library (old : PolicyRow) (rec : ScrapedRecord)
    (now : Nat) : PolicyRow :=
  { old with
    content := rec.content
    last_updated := now }

/-- Conflict clause of `savePolicies` in `src/unnamed/part_000`:
`SET title = excluded.title, content = excluded.content,
last_updated = CURRENT_TIMESTAMP` (title is updated, summary is not). -/
def upsertOnConflict_part000 (old : PolicyRow) (rec : ScrapedRecord)
    (now : Nat) : PolicyRow :=
  { old with
    title := rec.title
    content := rec.content
    last_updated := now }

/-! ## The `/api/ask` endpoint (src/unnamed/part_001, both copies)

The handler is a transcription of the route body: the oracles
`activePolicies` (the rows the `SELECT ... WHERE is_active = true ... LIMIT
15` would return) and `llmText` (the language-model reply) stand for the
two external services; the effects record tracks whether the `policies`
table was queried and whether the language-model API was called. -/

structure AskRequestBody where
  question : Option (List Char)

structure AskResponse where
  status : Nat
  success : Bool
  deriving DecidableEq

structure AskEffects where
  policiesQueried : Bool
  anthropicCalled : Bool
  deriving DecidableEq

/-- Does `hay` start with `needle`? -/
def startsWithCh : List Char → List Char → Bool
  | _, [] => true
  | [], _ :: _ => false
  | a :: as, b :: bs => a == b && startsWithCh as bs

/-- `hay.includes(needle)` for strings. -/
def includesCh : List Char → List Char → Bool
  | [], needle => needle.isEmpty
  | a :: rest, needle => startsWithCh (a :: rest) needle || includesCh rest needle

/-- `String.prototype.toLowerCase` (ASCII lowering). -/
def jsToLower (l : List Char) : List Char := l.map Char.toLower

/-- The `POST /api/ask` handler of `src/unnamed/part_001` (the same route
body appears twice in that file, at lines 142-249 and 735-842): reject a
missing or short question with HTTP 400 before touching the database or
the model; redirect homework-style questions; otherwise query the
policies, short-circuit on an empty table, and else call the model. -/
def askHandler (body : AskRequestBody) (activePolicies : List PolicyRow)
    (llmText : List Char) : AskResponse × AskEffects :=
  match body.question with
  | none => (⟨400, false⟩, ⟨false, false⟩)
  | some question =>
    if question.isEmpty ∨ question.length < 5 then
      (⟨400, false⟩, ⟨false, false⟩)
    else
      let lowerQ := jsToLower question
      if includesCh lowerQ "solve".data || includesCh lowerQ "homework".data ||
          includesCh lowerQ "assignment".data then
        (⟨200, true⟩, ⟨false, false⟩)
      else
        let policies := activePolicies.take 15
        if policies.isEmpty then (⟨200, true⟩, ⟨true, false⟩)
        else
          let answer := if includesCh llmText "⚠️".data then llmText
            else llmText ++ "\n\n⚠️ Please note: This tool can make mistakes.".data
          let _ := answer
          (⟨200, true⟩, ⟨true, true⟩)

/-! ## Concrete inputs used by counterexamples and witnesses -/

/-- The whitespace-normalization example input of the spec:
`"Hello\n\n\tworld   !"`. -/
def exWhitespaceInput : List Char := "Hello\n\n\tworld   !".data

/-- 150 `'a'`s, one period, 50 `'b'`s: trimmed length 201, last period of
the first 200 characters at index 150 (beyond 140). -/
def exPeriodContent : List Char :=
  List.replicate 150 'a' ++ ['.'] ++ List.replicate 50 'b'

/-- A row already in the database, with a summary and title that differ
from the incoming record. -/
def exOldRow : PolicyRow :=
  ⟨"policy-x".data, "Old Title".data, "academic".data, "old content".data,
    "old summary".data, "https://example.edu/a".data, "Old Source".data,
    true, 11, 12⟩

/-- An incoming scraped record for the same `external_id` with fresh
title, content and summary. -/
def exNewRec : ScrapedRecord :=
  ⟨"policy-x".data, "New Title".data, "academic".data, "new content".data,
    "new summary".data, "https://example.edu/a".data, "New Source".data⟩

/-- A document whose first v2 selector (`.content`) holds 150 plain
characters. -/
def exDocSel : Doc :=
  ⟨fun sel => if sel = ".content".data then some (List.replicate 150 'a') else none,
    ["ignored paragraph text of the fallback tier".data]⟩

/-- A document matching no selector and holding no body paragraphs. -/
def exDocEmpty : Doc :=
  ⟨fun _ => none, []⟩

/-- A document every selector of which yields 10050 plain characters. -/
def exDocBigV2 : Doc :=
  ⟨fun _ => some (List.replicate 10050 'a'), []⟩

/-- A document every selector of which yields 12050 plain characters. -/
def exDocBigLib : Doc :=
  ⟨fun _ => some (List.replicate 12050 'a'), []⟩

/-- A main container holding one paragraph of 8050 plain characters. -/
def exDocBigA : DocA :=
  ⟨some [List.replicate 8050 'a']⟩

/-- A main container holding one paragraph of 60 plain characters —
below 100 but above the 50-character threshold actually used by
`scrapePolicyPage`. -/
def exDocSixty : DocA :=
  ⟨some [List.replicate 60 'a']⟩

/-! ## Facts about the normalization pipeline -/

theorem mem_collapseAux {p : Char → Bool} {r : Char} :
    ∀ (l : List Char) (b : Bool) (c : Char),
    c ∈ collapseAux p r b l → c = r ∨ p c = false := by
  intro l
  induction l with
  | nil => intro b c h; cases h
  | cons a t ih =>
    intro b c h
    by_cases hp : p a = true
    · cases b with
      | true =>
        simp only [collapseAux, hp, if_true] at h
        exact ih true c h
      | false =>
        simp only [collapseAux, hp, if_true] at h
        rcases List.mem_cons.mp h with h1 | h2
        · exact Or.inl h1
        · exact ih true c h2
    · simp only [collapseAux, hp, if_false] at h
      rcases List.mem_cons.mp h with h1 | h2
      · subst h1; exact Or.inr (Bool.eq_false_iff.mpr hp)
      · exact ih false c h2

theorem collapseAux_eq_self {p : Char → Bool} {r : Char} :
    ∀ (l : List Char) (b : Bool), (∀ c ∈ l, p c = false) →
    collapseAux p r b l = l := by
  intro l
  induction l with
  | nil => intro b _; rfl
  | cons a t ih =>
    intro b h
    have ha : p a = false := h a (List.mem_cons_self a t)
    simp only [collapseAux, ha, if_false, Bool.false_eq_true]
    exact congrArg (a :: ·) (ih false (fun c hc => h c (List.mem_cons_of_mem a hc)))

/-- Characters produced by `collapseWS` are never newlines: every char of
the output is either the replacement `' '` or a non-whitespace char of the
input. -/
theorem collapseWS_no_newline (l : List Char) :
    ∀ c ∈ collapseWS l, (c == '\n') = false := by
  intro c hc
  rcases mem_collapseAux l false c hc with h | h
  · subst h; rfl
  · cases hnl : c == '\n'
    · rfl
    · exfalso
      have : c = '\n' := by exact beq_iff_eq.mp hnl
      subst this
      simp [jsWS] at h

/-- Characters produced by `collapseWS` are never tabs. -/
theorem collapseWS_no_tab (l : List Char) :
    ∀ c ∈ collapseWS l, (c == '\t') = false := by
  intro c hc
  rcases mem_collapseAux l false c hc with h | h
  · subst h; rfl
  · cases ht : c == '\t'
    · rfl
    · exfalso
      have : c = '\t' := by exact beq_iff_eq.mp ht
      subst this
      simp [jsWS] at h

/-- Both `cleanText` variants compute `s.replace(/\s+/g, ' ').trim()`:
the second `replace` of each variant is an identity on the output of the
first. -/
theorem cleanText_variants_collapse (s : List Char) :
    cleanText_allPolicies s = jsTrim (collapseWS s) ∧
    cleanText_v2 s = jsTrim (collapseWS s) := by
  constructor
  · unfold cleanText_allPolicies collapseNL collapseRuns
    rw [collapseAux_eq_self (collapseWS s) false (collapseWS_no_newline s)]
  · unfold cleanText_v2 removeTab
    rw [List.filter_eq_self.mpr]
    intro c hc
    rw [collapseWS_no_tab s c hc]
    rfl

/-! ## `trim` is idempotent

Needed because the scrapers re-`trim` text that `cleanText` (which ends in
a `trim`) already produced. -/

theorem dropWhile_dropWhile (p : Char → Bool) (l : List Char) :
    (l.dropWhile p).dropWhile p = l.dropWhile p := by
  induction l with
  | nil => rfl
  | cons a t ih =>
    cases hp : p a
    · simp [List.dropWhile_cons, hp]
    · simp [List.dropWhile_cons, hp, ih]

/-- If a list has no removable leading segment, neither does any of its
front parts. -/
theorem dropWhile_front (p : Char → Bool) (m s t : List Char)
    (hm : m.dropWhile p = m) (hst : m = s ++ t) : s.dropWhile p = s := by
  cases s with
  | nil => rfl
  | cons c u =>
    have hc : p c = false := by
      cases hpc : p c
      · rfl
      · exfalso
        rw [hst] at hm
        rw [List.cons_append, List.dropWhile_cons_of_pos hpc] at hm
        have hlen := congrArg List.length hm
        have hle : ((u ++ t).dropWhile p).length ≤ (u ++ t).length :=
          (List.dropWhile_suffix p).length_le
        simp only [List.length_cons] at hlen
        omega
    simp [List.dropWhile_cons, hc]

theorem jsTrim_idem (l : List Char) : jsTrim (jsTrim l) = jsTrim l := by
  unfold jsTrim
  set m := l.dropWhile jsWS with hm
  obtain ⟨t, ht⟩ := List.dropWhile_suffix (l := m.reverse) jsWS
  set s := m.reverse.dropWhile jsWS with hs
  have hmdec : m = s.reverse ++ t.reverse := by
    have : (t ++ s).reverse = m.reverse.reverse := by rw [ht]
    simp only [List.reverse_append, List.reverse_reverse] at this
    exact this.symm
  have h1 : s.reverse.dropWhile jsWS = s.reverse :=
    dropWhile_front jsWS m s.reverse t.reverse (by rw [hm]; exact dropWhile_dropWhile jsWS l) hmdec
  rw [h1, List.reverse_reverse]
  rw [show s.dropWhile jsWS = s from by rw [hs]; exact dropWhile_dropWhile jsWS m.reverse]

/-! ## Trim and clean on whitespace-free input -/

theorem dropWhile_eq_self_of_all_false (p : Char → Bool) (l : List Char)
    (h : ∀ c ∈ l, p c = false) : l.dropWhile p = l := by
  cases l with
  | nil => rfl
  | cons a t => simp [List.dropWhile_cons, h a (List.mem_cons_self a t)]

theorem jsTrim_eq_self_of_no_ws (l : List Char)
    (h : ∀ c ∈ l, jsWS c = false) : jsTrim l = l := by
  unfold jsTrim
  rw [dropWhile_eq_self_of_all_false jsWS l h,
      dropWhile_eq_self_of_all_false jsWS l.reverse
        (fun c hc => h c (List.mem_reverse.mp hc)),
      List.reverse_reverse]

theorem cleanText_eq_self_of_no_ws (l : List Char)
    (h : ∀ c ∈ l, jsWS c = false) :
    cleanText_allPolicies l = l ∧ cleanText_v2 l = l := by
  have hcoll : collapseWS l = l := collapseAux_eq_self l false h
  refine ⟨?_, ?_⟩
  · rw [(cleanText_variants_collapse l).1, hcoll, jsTrim_eq_self_of_no_ws l h]
  · rw [(cleanText_variants_collapse l).2, hcoll, jsTrim_eq_self_of_no_ws l h]

theorem no_ws_replicate_a (n : Nat) :
    ∀ c ∈ List.replicate n 'a', jsWS c = false := by
  intro c hc
  rw [List.eq_of_mem_replicate hc]
  rfl

/-- Trailing whitespace is discarded by `trim`. -/
theorem jsTrim_append_ws (l w : List Char) (hw : ∀ c ∈ w, jsWS c = true) :
    jsTrim (l ++ w) = jsTrim l := by
  unfold jsTrim
  rw [List.dropWhile_append]
  cases hempty : (l.dropWhile jsWS).isEmpty
  · simp only [Bool.false_eq_true, if_false]
    rw [List.reverse_append,
        List.dropWhile_append_of_pos (fun c hc => hw c (List.mem_reverse.mp hc))]
  · simp only [if_true]
    have hdw : w.dropWhile jsWS = [] := by
      cases w with
      | nil => rfl
      | cons a t =>
        rw [List.dropWhile_cons_of_pos (hw a (List.mem_cons_self a t))]
        have : ∀ c ∈ t, jsWS c = true := fun c hc => hw c (List.mem_cons_of_mem a hc)
        clear hw
        induction t with
        | nil => rfl
        | cons b u ih =>
          rw [List.dropWhile_cons_of_pos (this b (List.mem_cons_self b u))]
          exact ih (fun c hc => this c (List.mem_cons_of_mem b hc))
    rw [hdw]
    rw [List.isEmpty_iff.mp hempty]

/-! ## The selector loop -/

/-- `cleanText_v2` output is a `trim` fixed point. -/
theorem jsTrim_cleanText_v2 (x : List Char) :
    jsTrim (cleanText_v2 x) = cleanText_v2 x := by
  unfold cleanText_v2
  exact jsTrim_idem _

/-- `cleanText_allPolicies` output is a `trim` fixed point. -/
theorem jsTrim_cleanText_allPolicies (x : List Char) :
    jsTrim (cleanText_allPolicies x) = cleanText_allPolicies x := by
  unfold cleanText_allPolicies
  exact jsTrim_idem _

/-- If every selector before `sel` is unacceptable (unmatched, or matched
with cleaned text at most `minLen`), and `sel` matches with cleaned text
strictly over `minLen`, the loop stops at `sel`. -/
theorem findSelectorContent_first (clean : List Char → List Char) (minLen : Nat)
    (q : List Char → Option (List Char)) :
    ∀ (pre : List (List Char)) (sel : List Char) (post : List (List Char))
      (raw : List Char),
    (∀ s ∈ pre, ∀ r, q s = some r → (clean r).length ≤ minLen) →
    q sel = some raw → minLen < (clean raw).length →
    findSelectorContent clean minLen q (pre ++ sel :: post) = some (clean raw) := by
  intro pre
  induction pre with
  | nil =>
    intro sel post raw _ hq hlen
    simp only [List.nil_append, findSelectorContent, hq, if_pos hlen]
  | cons p pre' ih =>
    intro sel post raw hpre hq hlen
    have hrest : ∀ s ∈ pre', ∀ r, q s = some r → (clean r).length ≤ minLen :=
      fun s hs => hpre s (List.mem_cons_of_mem p hs)
    rw [List.cons_append]
    cases hqp : q p with
    | none =>
      simp only [findSelectorContent, hqp]
      exact ih sel post raw hrest hq hlen
    | some r =>
      have hr : (clean r).length ≤ minLen := hpre p (List.mem_cons_self p pre') r hqp
      simp only [findSelectorContent, hqp, if_neg (Nat.not_lt.mpr hr)]
      exact ih sel post raw hrest hq hlen

/-- When no selector is acceptable, the loop returns `none`. -/
theorem findSelectorContent_none (clean : List Char → List Char) (minLen : Nat)
    (q : List Char → Option (List Char)) :
    ∀ sels : List (List Char),
    (∀ s ∈ sels, ∀ r, q s = some r → (clean r).length ≤ minLen) →
    findSelectorContent clean minLen q sels = none := by
  intro sels
  induction sels with
  | nil => intro _; rfl
  | cons s rest ih =>
    intro h
    cases hqs : q s with
    | none =>
      simp only [findSelectorContent, hqs]
      exact ih (fun x hx => h x (List.mem_cons_of_mem s hx))
    | some r =>
      have hr : (clean r).length ≤ minLen := h s (List.mem_cons_self s rest) r hqs
      simp only [findSelectorContent, hqs, if_neg (Nat.not_lt.mpr hr)]
      exact ih (fun x hx => h x (List.mem_cons_of_mem s hx))

/-- Evaluation of the v2-style extractor on a document whose every
selector yields `n` plain (non-whitespace) characters. -/
theorem extractContent_const_query (sel0 : List Char) (rest : List (List Char))
    (minLen floor : Nat) (sep : List Char) (ps : List (List Char)) (n : Nat)
    (h : minLen < n) :
    extractContent cleanText_v2 (sel0 :: rest) minLen floor sep
      ⟨fun _ => some (List.replicate n 'a'), ps⟩ = some (List.replicate n 'a') := by
  have hclean : cleanText_v2 (List.replicate n 'a') = List.replicate n 'a' :=
    (cleanText_eq_self_of_no_ws _ (no_ws_replicate_a n)).2
  have hlen : minLen < (cleanText_v2 (List.replicate n 'a')).length := by
    rw [hclean, List.length_replicate]; exact h
  unfold extractContent
  simp only [findSelectorContent, hclean, List.length_replicate, if_pos h]
  rw [jsTrim_eq_self_of_no_ws _ (no_ws_replicate_a n)]
  rw [if_neg (by simp only [List.length_replicate]; omega)]

/-- Evaluation of `extract_allPolicies` on a main container holding a
single paragraph of `n` plain characters. -/
theorem extract_allPolicies_single (n : Nat) (h20 : 20 < n) (h50 : 50 ≤ n) :
    extract_allPolicies ⟨some [List.replicate n 'a']⟩ =
      some (List.replicate n 'a') := by
  have hclean : cleanText_allPolicies (List.replicate n 'a') = List.replicate n 'a' :=
    (cleanText_eq_self_of_no_ws _ (no_ws_replicate_a n)).1
  have hne : List.replicate n 'a' ≠ [] := by
    intro hcon
    have := congrArg List.length hcon
    simp only [List.length_replicate, List.length_nil] at this
    omega
  unfold extract_allPolicies collectMainParas
  simp only [List.foldl_cons, List.foldl_nil, hclean, List.length_replicate,
    List.nil_append]
  rw [show (if List.replicate n 'a' ≠ [] ∧ 20 < n then List.replicate n 'a' ++ sepPara
      else []) = List.replicate n 'a' ++ sepPara from if_pos ⟨hne, h20⟩]
  rw [jsTrim_append_ws _ _ (by
    intro c hc
    simp only [sepPara, List.mem_cons, List.not_mem_nil, or_false] at hc
    rcases hc with h1 | h1 <;> (subst h1; rfl))]
  rw [jsTrim_eq_self_of_no_ws _ (no_ws_replicate_a n)]
  rw [if_neg (by simp only [List.length_replicate, minContentLength_allPolicies]; omega)]

/-! ## The claims -/

set_option maxRecDepth 40000

/-- C9: the two `cleanText` variants are extensionally equal — both return
exactly `s.replace(/\s+/g, ' ').trim()`; the second replace of each
variant (collapsing newline runs, resp. deleting tabs) is a no-op because
the first replace has already substituted every whitespace run, newlines
and tabs included, by a single space. -/
theorem cleanText_variants_extensionally_equal (s : List Char) :
    cleanText_allPolicies s = jsTrim (collapseWS s) ∧
    cleanText_v2 s = jsTrim (collapseWS s) ∧
    cleanText_allPolicies s = cleanText_v2 s := by
  obtain ⟨h1, h2⟩ := cleanText_variants_collapse s
  exact ⟨h1, h2, h1.trans h2.symm⟩

/-- C2 counterexample: in the variant whose second step is
`.replace(/\n+/g, '\n')`, the input `"Hello\n\n\tworld   !"` does NOT
normalize to `"Hello\nworld !"` — no newline survives, because the
preceding `\s+` collapse already replaced the newline run by a space. -/
theorem cleanText_newline_mode_refuted :
    cleanText_allPolicies exWhitespaceInput ≠ "Hello\nworld !".data := by decide

/-- C2 amended: both `cleanText` variants normalize
`"Hello\n\n\tworld   !"` to `"Hello world !"`; the newline-preserving mode
described by the spec does not exist in the code, since the `\n+` step
runs after all whitespace runs were already collapsed to spaces. -/
theorem cleanText_whitespace_example :
    cleanText_allPolicies exWhitespaceInput = "Hello world !".data ∧
    cleanText_v2 exWhitespaceInput = "Hello world !".data := by decide

/-- C6: with the default `maxLength = 200`, every `generateSummary`
variant returns a summary of length at most 200 on every input — on the
short-content branch, the period-boundary branch and the ellipsis
branch. -/
theorem generateSummary_length_le (content : List Char) :
    (generateSummary_allPolicies content 200).length ≤ 200 ∧
    (generateSummary_v2 content 200).length ≤ 200 := by
  constructor
  · simp only [generateSummary_allPolicies]
    split
    · assumption
    · split
      · simp only [List.length_take]
        omega
      · simp only [List.length_append, List.length_take, ellipsis,
          List.length_cons, List.length_nil]
        omega
  · simp only [generateSummary_v2]
    split
    · assumption
    · simp only [List.length_append, List.length_take, ellipsis,
        List.length_cons, List.length_nil]
      omega

/-- C1 counterexample: the `generateSummary` of `src/scrape-policies-v2.js`
(and its missing-pages/library twins) violates the claimed law at
`exPeriodContent`: the trimmed content is longer than 200, the last period
of the first 200 characters sits at index 150 > 140, yet the summary is
not the prefix up to that period — it is the 200-character ellipsis form
instead. -/
theorem generateSummary_v2_no_period_branch :
    200 < (jsTrim exPeriodContent).length ∧
    140 < lastIndexOfChar '.' ((jsTrim exPeriodContent).take 200) ∧
    generateSummary_v2 exPeriodContent 200 ≠
      ((jsTrim exPeriodContent).take 200).take
        ((lastIndexOfChar '.' ((jsTrim exPeriodContent).take 200)).toNat + 1) ∧
    (generateSummary_v2 exPeriodContent 200).length = 200 := by decide

/-- C1 amended: with the default `maxLength = 200`, the claimed law holds
for the `generateSummary` of `src/scrape-all-policies.js` and
`src/unnamed/part_000` (trimmed content of length ≤ 200 is returned
whole; a last period of the first 200 characters at index strictly
greater than 140 ends the summary inclusively; otherwise the summary is
the first 197 characters plus `"..."`, 200 characters in total) — but
the `generateSummary` of `src/scrape-policies-v2.js`,
`src/scrape-missing-pages.js` and the library scraper has no
period-boundary branch: every input whose trimmed length exceeds 200
yields exactly the first 197 characters plus `"..."`. -/
theorem generateSummary_variants_law (content : List Char) :
    ((jsTrim content).length ≤ 200 →
      generateSummary_allPolicies content 200 = jsTrim content ∧
      generateSummary_v2 content 200 = jsTrim content) ∧
    (200 < (jsTrim content).length →
      (140 < lastIndexOfChar '.' ((jsTrim content).take 200) →
        generateSummary_allPolicies content 200 =
          ((jsTrim content).take 200).take
            ((lastIndexOfChar '.' ((jsTrim content).take 200)).toNat + 1)) ∧
      (lastIndexOfChar '.' ((jsTrim content).take 200) ≤ 140 →
        generateSummary_allPolicies content 200 =
          (jsTrim content).take 197 ++ ellipsis ∧
        (generateSummary_allPolicies content 200).length = 200) ∧
      (generateSummary_v2 content 200 = (jsTrim content).take 197 ++ ellipsis ∧
        (generateSummary_v2 content 200).length = 200)) := by
  constructor
  · intro h
    constructor
    · simp only [generateSummary_allPolicies, if_pos h]
    · simp only [generateSummary_v2, if_pos h]
  · intro h
    have hnle : ¬ (jsTrim content).length ≤ 200 := by omega
    refine ⟨?_, ?_, ?_⟩
    · intro hp
      have hcond : 7 * ((200 : Nat) : Int) <
          10 * lastIndexOfChar '.' ((jsTrim content).take 200) := by
        push_cast
        omega
      simp only [generateSummary_allPolicies, if_neg hnle, if_pos hcond]
    · intro hp
      have hcond : ¬ (7 * ((200 : Nat) : Int) <
          10 * lastIndexOfChar '.' ((jsTrim content).take 200)) := by
        push_cast
        omega
      constructor
      · simp only [generateSummary_allPolicies, if_neg hnle, if_neg hcond,
          List.take_take]
        norm_num
      · simp only [generateSummary_allPolicies, if_neg hnle, if_neg hcond,
          List.length_append, List.length_take, ellipsis, List.length_cons,
          List.length_nil]
        omega
    · constructor
      · simp only [generateSummary_v2, if_neg hnle]
      · simp only [generateSummary_v2, if_neg hnle, List.length_append,
          List.length_take, ellipsis, List.length_cons, List.length_nil]
        omega

/-- Witness for the amended C1: at `exPeriodContent` the all-policies
variant ends at the period (index 150) while the v2 variant returns the
197-character-plus-ellipsis form. -/
theorem generateSummary_variants_law_witness :
    generateSummary_allPolicies exPeriodContent 200 =
      ((jsTrim exPeriodContent).take 200).take
        ((lastIndexOfChar '.' ((jsTrim exPeriodContent).take 200)).toNat + 1) ∧
    generateSummary_v2 exPeriodContent 200 =
      (jsTrim exPeriodContent).take 197 ++ ellipsis :=
  ⟨((generateSummary_variants_law exPeriodContent).2 (by decide)).1 (by decide),
    (((generateSummary_variants_law exPeriodContent).2 (by decide)).2.2).1⟩

/-- C3: whenever some candidate selector, tried in the configured
priority order, matches with cleaned text strictly above the minimum
threshold, the extracted content is exactly the cleaned text of the first
such selector, and the body-paragraph fallback tier is never consulted:
the result is the same whatever the body paragraphs are. -/
theorem extractContent_first_selector_wins
    (minLen floor : Nat) (sep : List Char) (pre post : List (List Char))
    (sel raw : List Char) (d : Doc)
    (hpre : ∀ s ∈ pre, ∀ r, d.query s = some r → (cleanText_v2 r).length ≤ minLen)
    (hq : d.query sel = some raw)
    (hlen : minLen < (cleanText_v2 raw).length) :
    extractContent cleanText_v2 (pre ++ sel :: post) minLen floor sep d =
      some (cleanText_v2 raw) ∧
    ∀ paras : List (List Char),
      extractContent cleanText_v2 (pre ++ sel :: post) minLen floor sep
        ⟨d.query, paras⟩ = some (cleanText_v2 raw) := by
  have hfind : findSelectorContent cleanText_v2 minLen d.query
      (pre ++ sel :: post) = some (cleanText_v2 raw) :=
    findSelectorContent_first cleanText_v2 minLen d.query pre sel post raw hpre hq hlen
  have hmain : ∀ paras : List (List Char),
      extractContent cleanText_v2 (pre ++ sel :: post) minLen floor sep
        ⟨d.query, paras⟩ = some (cleanText_v2 raw) := by
    intro paras
    unfold extractContent
    simp only [hfind, jsTrim_cleanText_v2]
    rw [if_neg (Nat.not_lt.mpr (Nat.le_of_lt hlen))]
  exact ⟨(hmain d.bodyParas).symm ▸ hmain d.bodyParas, hmain⟩

/-- Witness for C3 at a concrete document: the first v2 selector
`.content` holds 150 plain characters, so the extraction returns its
cleaned text even though the fallback paragraphs differ. -/
theorem extractContent_first_selector_wins_witness :
    scrapeExtract_v2 exDocSel = some (cleanText_v2 (List.replicate 150 'a')) := by
  have h := (extractContent_first_selector_wins 100 30 sepPara []
    [".main-content".data, "main".data, "article".data, ".policy-content".data,
      "#content".data, ".page-content".data]
    ".content".data (List.replicate 150 'a') exDocSel
    (by intro s hs; cases hs)
    (by rfl)
    (by
      rw [(cleanText_eq_self_of_no_ws _ (no_ws_replicate_a 150)).2]
      simp)).1
  exact h

/-- C4: when no candidate selector yields cleaned text above the minimum
threshold and the trimmed body-paragraph concatenation also falls below
it, the extraction returns the no-result value `none` (a normal value of
the total function, not an exception), and the record builders of the v2
and missing-pages scrapers then produce no record. -/
theorem extractContent_below_threshold_none :
    (∀ (minLen floor : Nat) (sep : List Char) (sels : List (List Char)) (d : Doc),
      (∀ s ∈ sels, ∀ r, d.query s = some r → (cleanText_v2 r).length ≤ minLen) →
      (jsTrim (collectParas cleanText_v2 floor sep d.bodyParas)).length < minLen →
      extractContent cleanText_v2 sels minLen floor sep d = none) ∧
    (∀ url title : List Char, ∀ d : Doc,
      scrapeExtract_v2 d = none → scrapePage_v2 url title d = none) ∧
    (∀ url title category : List Char, ∀ d : Doc,
      scrapeExtract_missingPages d = none →
      scrapePage_missingPages url title category d = none) := by
  refine ⟨?_, ?_, ?_⟩
  · intro minLen floor sep sels d hsel hfall
    unfold extractContent
    rw [findSelectorContent_none cleanText_v2 minLen d.query sels hsel]
    simp only []
    rw [if_pos hfall]
  · intro url title d h
    unfold scrapePage_v2
    rw [h]
  · intro url title category d h
    unfold scrapePage_missingPages
    rw [h]

/-- Witness for C4 at the empty document: nothing matches, the fallback
is empty, the extraction is `none` and no v2 record is produced. -/
theorem extractContent_below_threshold_none_witness :
    scrapeExtract_v2 exDocEmpty = none ∧
    scrapePage_v2 "https://example.edu".data "Title".data exDocEmpty = none := by
  have h1 : scrapeExtract_v2 exDocEmpty = none :=
    extractContent_below_threshold_none.1 100 30 sepPara selectors_v2 exDocEmpty
      (by intro s hs r hr; cases hr)
      (by decide)
  exact ⟨h1, extractContent_below_threshold_none.2.1 _ _ exDocEmpty h1⟩

/-- C5: whenever the extracted content is strictly longer than the
variant's configured cap (10000 for v2, 8000 for scrape-all-policies,
12000 for the library scraper), the `content` field of the record the
scraper returns has length exactly the cap — a hard character cut. -/
theorem record_content_capped :
    (∀ url title : List Char, ∀ d : Doc, ∀ content : List Char,
      scrapeExtract_v2 d = some content →
      maxContentLength_v2 < content.length →
      Option.map (fun r => r.content.length) (scrapePage_v2 url title d) =
        some maxContentLength_v2) ∧
    (∀ linkTitle linkUrl : List Char, ∀ d : DocA, ∀ content : List Char,
      extract_allPolicies d = some content →
      maxContentLength_allPolicies < content.length →
      Option.map (fun r => r.content.length) (scrapePolicyPage linkTitle linkUrl d) =
        some maxContentLength_allPolicies) ∧
    (∀ url title : List Char, ∀ d : Doc, ∀ content : List Char,
      scrapeExtract_library d = some content →
      maxContentLength_library < content.length →
      Option.map (fun r => r.content.length) (scrapePage_library url title d) =
        some maxContentLength_library) := by
  refine ⟨?_, ?_, ?_⟩
  · intro url title d content h hlong
    unfold scrapePage_v2
    rw [h]
    simp only [Option.map_some']
    congr 1
    simp only [List.length_take]
    omega
  · intro linkTitle linkUrl d content h hlong
    unfold scrapePolicyPage
    rw [h]
    simp only [Option.map_some']
    congr 1
    simp only [List.length_take]
    omega
  · intro url title d content h hlong
    unfold scrapePage_library
    rw [h]
    simp only [Option.map_some']
    congr 1
    simp only [List.length_take]
    omega

/-- Witness for C5: documents yielding 10050-, 8050- and 12050-character
content produce records whose content length is exactly 10000, 8000 and
12000. -/
theorem record_content_capped_witness :
    Option.map (fun r => r.content.length)
      (scrapePage_v2 "u".data "T".data exDocBigV2) = some maxContentLength_v2 ∧
    Option.map (fun r => r.content.length)
      (scrapePolicyPage "T".data "u".data exDocBigA) = some maxContentLength_allPolicies ∧
    Option.map (fun r => r.content.length)
      (scrapePage_library "u".data "T".data exDocBigLib) = some maxContentLength_library := by
  refine ⟨?_, ?_, ?_⟩
  · exact record_content_capped.1 "u".data "T".data exDocBigV2
      (List.replicate 10050 'a')
      (extractContent_const_query ".content".data _ minContentLength_v2 30 sepPara
        [] 10050 (by decide))
      (by simp only [List.length_replicate, maxContentLength_v2]; omega)
  · exact record_content_capped.2.1 "T".data "u".data exDocBigA
      (List.replicate 8050 'a')
      (extract_allPolicies_single 8050 (by omega) (by omega))
      (by simp only [List.length_replicate, maxContentLength_allPolicies]; omega)
  · exact record_content_capped.2.2 "u".data "T".data exDocBigLib
      (List.replicate 12050 'a')
      (extractContent_const_query "main".data _ minContentLength_library 30 sepSpace
        [] 12050 (by decide))
      (by simp only [List.length_replicate, maxContentLength_library]; omega)

/-- C7 counterexample: `scrapePolicyPage` in `src/scrape-all-policies.js`
accepts a page whose extracted content has only 60 characters and
produces a record for it, so its minimum acceptable content length (50)
does not lie in the claimed 100–200 band. -/
theorem min_content_length_below_100 :
    Option.map (fun r => r.content.length)
      (scrapePolicyPage "Title".data "https://example.edu".data exDocSixty) =
      some 60 ∧
    ¬ 100 ≤ minContentLength_allPolicies := by decide

/-- C7 amended: the per-variant minimum acceptable content lengths are
50 (scrape-all-policies), 100 (v2), 100 (missing-pages), 200 (library)
and 100 (part_000's per-section guard) — each lies between 50 and 200
inclusive, not between 100 and 200 — and any content a variant accepts
meets that variant's threshold. -/
theorem min_content_length_bounds :
    (minContentLength_allPolicies = 50 ∧ minContentLength_v2 = 100 ∧
      minContentLength_missingPages = 100 ∧ minContentLength_library = 200 ∧
      minSectionLength_part000 = 100) ∧
    (50 ≤ minContentLength_allPolicies ∧ minContentLength_allPolicies ≤ 200 ∧
      50 ≤ minContentLength_v2 ∧ minContentLength_v2 ≤ 200 ∧
      50 ≤ minContentLength_missingPages ∧ minContentLength_missingPages ≤ 200 ∧
      50 ≤ minContentLength_library ∧ minContentLength_library ≤ 200 ∧
      50 ≤ minSectionLength_part000 ∧ minSectionLength_part000 ≤ 200) ∧
    (∀ d : DocA, ∀ content : List Char,
      extract_allPolicies d = some content →
      minContentLength_allPolicies ≤ content.length) ∧
    (∀ d : Doc, ∀ content : List Char,
      scrapeExtract_v2 d = some content →
      minContentLength_v2 ≤ content.length) := by
  refine ⟨by decide, by decide, ?_, ?_⟩
  · intro d content h
    unfold extract_allPolicies at h
    split at h <;> dsimp only at h <;> split at h
    · cases h
    · cases h; omega
    · cases h
    · cases h; omega
  · intro d content h
    unfold scrapeExtract_v2 extractContent at h
    split at h <;> dsimp only at h <;> split at h
    · cases h
    · cases h; omega
    · cases h
    · cases h; omega

/-- Witness for the amended C7: a 60-character page is accepted by
`scrapePolicyPage` (threshold 50) and a 150-character page by the v2
extractor (threshold 100), each meeting its variant's threshold. -/
theorem min_content_length_bounds_witness :
    minContentLength_allPolicies ≤ (List.replicate 60 'a').length ∧
    minContentLength_v2 ≤ (cleanText_v2 (List.replicate 150 'a')).length :=
  ⟨min_content_length_bounds.2.2.1 exDocSixty (List.replicate 60 'a')
      (extract_allPolicies_single 60 (by omega) (by omega)),
    min_content_length_bounds.2.2.2 exDocSel
      (cleanText_v2 (List.replicate 150 'a')) (by decide)⟩

/-- C8 counterexample: the conflict clause of `savePolicies` in
`src/scrape-policies-v2.js` leaves the summary column at its old value,
and the clause of `src/unnamed/part_000` rewrites the title column — so
it is not the case that every variant updates exactly content, summary
and last_updated. -/
theorem upsert_frame_refuted :
    (upsertOnConflict_v2 exOldRow exNewRec 99).summary = exOldRow.summary ∧
    exOldRow.summary ≠ exNewRec.summary ∧
    (upsertOnConflict_part000 exOldRow exNewRec 99).title = exNewRec.title ∧
    exOldRow.title ≠ exNewRec.title := by decide

/-- C8 amended: on an `external_id` conflict, `scrape-all-policies.js`
updates content, summary and last_updated and leaves every other column
unchanged; the v2, missing-pages and library variants update only content
and last_updated (the stored summary goes stale); `part_000` updates
title, content and last_updated.  No variant touches category,
source_url, source_name, is_active or created_at. -/
theorem upsert_frame_per_variant (old : PolicyRow) (rec : ScrapedRecord) (now : Nat) :
    ((upsertOnConflict_allPolicies old rec now).content = rec.content ∧
      (upsertOnConflict_allPolicies old rec now).summary = rec.summary ∧
      (upsertOnConflict_allPolicies old rec now).last_updated = now ∧
      (upsertOnConflict_allPolicies old rec now).external_id = old.external_id ∧
      (upsertOnConflict_allPolicies old rec now).title = old.title ∧
      (upsertOnConflict_allPolicies old rec now).category = old.category ∧
      (upsertOnConflict_allPolicies old rec now).source_url = old.source_url ∧
      (upsertOnConflict_allPolicies old rec now).source_name = old.source_name ∧
      (upsertOnConflict_allPolicies old rec now).is_active = old.is_active ∧
      (upsertOnConflict_allPolicies old rec now).created_at = old.created_at) ∧
    ((upsertOnConflict_v2 old rec now).content = rec.content ∧
      (upsertOnConflict_v2 old rec now).summary = old.summary ∧
      (upsertOnConflict_v2 old rec now).last_updated = now ∧
      (upsertOnConflict_v2 old rec now).external_id = old.external_id ∧
      (upsertOnConflict_v2 old rec now).title = old.title ∧
      (upsertOnConflict_v2 old rec now).category = old.category ∧
      (upsertOnConflict_v2 old rec now).source_url = old.source_url ∧
      (upsertOnConflict_v2 old rec now).source_name = old.source_name ∧
      (upsertOnConflict_v2 old rec now).is_active = old.is_active ∧
      (upsertOnConflict_v2 old rec now).created_at = old.created_at) ∧
    ((upsertOnConflict_missingPages old rec now).content = rec.content ∧
      (upsertOnConflict_missingPages old rec now).summary = old.summary ∧
      (upsertOnConflict_missingPages old rec now).last_updated = now ∧
      (upsertOnConflict_missingPages old rec now).title = old.title) ∧
    ((upsertOnConflict_library old rec now).content = rec.content ∧
      (upsertOnConflict_library old rec now).summary = old.summary ∧
      (upsertOnConflict_library old rec now).last_updated = now ∧
      (upsertOnConflict_library old rec now).title = old.title) ∧
    ((upsertOnConflict_part000 old rec now).title = rec.title ∧
      (upsertOnConflict_part000 old rec now).content = rec.content ∧
      (upsertOnConflict_part000 old rec now).last_updated = now ∧
      (upsertOnConflict_part000 old rec now).summary = old.summary ∧
      (upsertOnConflict_part000 old rec now).category = old.category ∧
      (upsertOnConflict_part000 old rec now).source_url = old.source_url ∧
      (upsertOnConflict_part000 old rec now).source_name = old.source_name ∧
      (upsertOnConflict_part000 old rec now).is_active = old.is_active ∧
      (upsertOnConflict_part000 old rec now).created_at = old.created_at) :=
  ⟨⟨rfl, rfl, rfl, rfl, rfl, rfl, rfl, rfl, rfl, rfl⟩,
    ⟨rfl, rfl, rfl, rfl, rfl, rfl, rfl, rfl, rfl, rfl⟩,
    ⟨rfl, rfl, rfl, rfl⟩, ⟨rfl, rfl, rfl, rfl⟩,
    ⟨rfl, rfl, rfl, rfl, rfl, rfl, rfl, rfl, rfl⟩⟩

/-- C10: a `POST /api/ask` request whose body has no `question` field or
whose question is shorter than 5 characters is answered with HTTP 400 and
`success: false`, without querying the policies table and without calling
the language-model API, whatever the database and model would have
returned. -/
theorem ask_rejects_short_question (body : AskRequestBody)
    (activePolicies : List PolicyRow) (llmText : List Char)
    (h : body.question = none ∨ ∃ q, body.question = some q ∧ q.length < 5) :
    askHandler body activePolicies llmText =
      (⟨400, false⟩, ⟨false, false⟩) := by
  obtain ⟨question⟩ := body
  rcases h with h | ⟨q, hq, hlen⟩
  · simp only at h
    subst h
    rfl
  · simp only at hq
    subst hq
    unfold askHandler
    simp only
    rw [if_pos (Or.inr hlen)]

/-- Witness for C10: the two-character question `"hi"` is rejected with
status 400 and no effects. -/
theorem ask_rejects_short_question_witness :
    askHandler ⟨some "hi".data⟩ [] [] = (⟨400, false⟩, ⟨false, false⟩) :=
  ask_rejects_short_question ⟨some "hi".data⟩ [] []
    (Or.inr ⟨"hi".data, rfl, by decide⟩)
